import Mathlib

/-!
Shallow embedding of the France TV video-resolution pipeline
(`yt_dlp/extractor/francetv.py`): the multi-source metadata fetcher,
the format resolver, the manifest assembler, the URL classifier of
`FranceTVIE._real_extract`, and `FranceTVBaseInfoExtractor._make_url_result`.

Backend interactions (metadata queries, token exchange, manifest parsing,
HEAD probes) are modelled as an explicit environment of response functions,
so the pipeline itself is a pure function of the environment and the
reference being resolved.  Framework utilities that the extractor calls but
that live outside this file's source (`url_or_none`, `int_or_none`,
`parse_qs`, `determine_ext`, `parse_iso8601`, truthiness coercions) are
modelled from the specification's description of them; each such definition
says so in its doc comment.
-/

namespace FranceTV

/-- Python-style "first non-null wins" update used by the fetch loop:
keep the current value when it is already set, otherwise take the new one. -/
def firstSome {α : Type} : Option α → Option α → Option α
  | some x, _ => some x
  | none, y => y

@[simp] theorem firstSome_none_left {α : Type} (y : Option α) : firstSome none y = y := rfl

@[simp] theorem firstSome_some_left {α : Type} (x : α) (y : Option α) :
    firstSome (some x) y = some x := rfl

@[simp] theorem firstSome_none_right {α : Type} (x : Option α) : firstSome x none = x := by
  cases x <;> rfl

/-- Strip a literal character sequence from the front of a list, returning
the remainder when the whole literal is present. -/
def stripLit : List Char → List Char → Option (List Char)
  | [], rest => some rest
  | _ :: _, [] => none
  | p :: ps, c :: cs => if c = p then stripLit ps cs else none

@[simp] theorem stripLit_append (p r : List Char) : stripLit p (p ++ r) = some r := by
  induction p with
  | nil => rfl
  | cons c cs ih => simp [stripLit, ih]

/-- Does the character list start with the given literal string? -/
def startsWithLit (p : String) (l : List Char) : Bool :=
  (stripLit p.data l).isSome

/-- Split a character list on a separator character, Python `str.split(sep)`:
the result always has at least one element, empty segments included. -/
def splitChar (sep : Char) : List Char → List (List Char)
  | [] => [[]]
  | c :: cs =>
    if c = sep then [] :: splitChar sep cs
    else
      match splitChar sep cs with
      | [] => [[c]]
      | p :: ps => (c :: p) :: ps

/-- The remainder of a character list after the first occurrence of a
character, `none` when the character does not occur. -/
def afterChar (ch : Char) : List Char → Option (List Char)
  | [] => none
  | c :: cs => if c = ch then some cs else afterChar ch cs

/-- Modelled from the spec: Python truthiness of an optional string
(absent and empty strings are falsy), as used by `if episode_number` and
`if catalog` in the source. -/
def strTruthy : Option String → Bool
  | some s => !s.data.isEmpty
  | none => false

/-- Modelled from the spec: `int_or_none`, "coerced to an integer ... if
parseable, else absent — never an error".  The inputs reaching it here are
regex digit groups, so a digits-only parser is faithful on this pipeline's
input space. -/
def digitsToNat (l : List Char) : Nat :=
  l.foldl (fun a c => a * 10 + (c.toNat - 48)) 0

/-- Modelled from the spec: `int_or_none` on an optional string. -/
def intOrNone : Option String → Option Int
  | none => none
  | some s =>
    if !s.data.isEmpty && s.data.all Char.isDigit then some (Int.ofNat (digitsToNat s.data))
    else none

/-- Modelled from the spec: `url_or_none`, a "resolvable URL" filter —
accepts http(s), rtmp-family and protocol-relative URL strings, rejecting
anything else. -/
def validUrlShape (s : String) : Bool :=
  startsWithLit "https://" s.data || startsWithLit "http://" s.data ||
    startsWithLit "rtmp" s.data || startsWithLit "//" s.data

/-- Modelled from the spec: `url_or_none` keeps a string only when it has a
resolvable URL shape. -/
def urlOrNone : Option String → Option String
  | some s => if validUrlShape s then some s else none
  | none => none

/-- Modelled from the spec: `determine_ext` — classification "by file
extension": the alphanumeric suffix after the last dot of the URL with its
query string removed, defaulting to `unknown_video`. -/
def determineExt (url : String) : String :=
  let noQuery := url.data.takeWhile (fun c => !(c == '?'))
  if noQuery.contains '.' then
    let guess := (noQuery.reverse.takeWhile (fun c => !(c == '.'))).reverse
    if !guess.isEmpty && guess.all Char.isAlphanum then String.mk guess else "unknown_video"
  else "unknown_video"

/-- Modelled from the spec: `join_nonempty(title, subtitle, delim=' - ')` —
"title and subtitle joined with \x22 - \x22 when both present; if absent,
whichever exists alone" (falsy values, absent or empty, are dropped). -/
def joinNonempty (a b : Option String) : String :=
  match (if strTruthy a then a else none), (if strTruthy b then b else none) with
  | some x, some y => x ++ " - " ++ y
  | some x, none => x
  | none, some y => y
  | none, none => ""

/-- Modelled from the spec: Python `str.strip()` — drop leading and
trailing whitespace. -/
def pyStrip (s : String) : String :=
  String.mk (((s.data.dropWhile Char.isWhitespace).reverse.dropWhile Char.isWhitespace).reverse)

/-- One fragment of the storyboard pseudo-format. -/
structure Fragment where
  url : String
  duration : Int
  deriving DecidableEq, Repr

/-- A resolved format entry, the fields this extractor reads or writes. -/
structure Fmt where
  url : String
  format_id : Option String := none
  ext : Option String := none
  protocol : Option String := none
  acodec : Option String := none
  vcodec : Option String := none
  language : Option String := none
  language_preference : Option Int := none
  format_note : Option String := none
  fragments : List Fragment := []
  deriving DecidableEq, Repr

/-- Subtitle tracks keyed by language, insertion-ordered. -/
abbrev SubtitleMap : Type := List (String × List String)

/-- Add one language's entries to a subtitle map, concatenating with any
existing entries for that language (`_merge_subtitles` per-key rule). -/
def subMapAdd (t : SubtitleMap) (k : String) (vs : List String) : SubtitleMap :=
  if t.any (fun kv => kv.1 == k) then
    t.map (fun kv => if kv.1 == k then (kv.1, kv.2 ++ vs) else kv)
  else t ++ [(k, vs)]

/-- Modelled from the spec: `_merge_subtitles(subs, target=subtitles)` —
merge newly parsed subtitle tracks into the accumulated map, concatenating
entry lists per language. -/
def mergeSubtitles (t new : SubtitleMap) : SubtitleMap :=
  new.foldl (fun acc kv => subMapAdd acc kv.1 kv.2) t

/-- The `video` object of one device-profile response, the fields this
extractor reads. -/
structure VideoDict where
  url : Option String := none
  format : Option String := none
  token : Option String := none
  workflow : Option String := none
  duration : Option Int := none
  is_live : Option Bool := none
  spritesheets : Option (List String) := none
  deriving DecidableEq, Repr

/-- The `meta` object of one device-profile response, the fields this
extractor reads. -/
structure MetaDict where
  title : Option String := none
  additional_title : Option String := none
  image_url : Option String := none
  broadcasted_at : Option String := none
  pre_title : Option String := none
  deriving DecidableEq, Repr

/-- One device-profile backend response: `{video: {...}, meta: {...}}`,
either part possibly absent or not a dict. -/
structure DeviceResponse where
  video : Option VideoDict := none
  meta : Option MetaDict := none
  deriving DecidableEq, Repr

/-- Match the regex `S(\d+)\s*E(\d+)` at the very start of a character
list: `S`, a maximal nonempty digit run, optional whitespace, `E`, a
maximal nonempty digit run. -/
def seMatchAt (l : List Char) : Option (String × String) :=
  match l with
  | 'S' :: rest =>
    let d1 := rest.takeWhile Char.isDigit
    if d1.isEmpty then none
    else
      match (rest.dropWhile Char.isDigit).dropWhile Char.isWhitespace with
      | 'E' :: rest2 =>
        let d2 := rest2.takeWhile Char.isDigit
        if d2.isEmpty then none else some (String.mk d1, String.mk d2)
      | _ => none
  | _ => none

/-- Leftmost search for `S(\d+)\s*E(\d+)`, the semantics of `re.search`. -/
def seScan : List Char → Option (String × String)
  | [] => none
  | c :: cs =>
    match seMatchAt (c :: cs) with
    | some r => some r
    | none => seScan cs

/-- Modelled from the spec together with the call site:
`_search_regex(r'S(\d+)\s*E(\d+)', meta.get('pre_title'), group=(1, 2),
default=(None, None))` — the two digit groups of the first match, or
`(None, None)` when the text is absent or never matches. -/
def seFromPre : Option String → Option String × Option String
  | none => (none, none)
  | some s =>
    match seScan s.data with
    | some (a, b) => (some a, some b)
    | none => (none, none)

/-- The mutable locals of the metadata-fetch loop of `_extract_video`. -/
structure FetchState where
  is_live : Option Bool := none
  videos : List VideoDict := []
  title : Option String := none
  subtitle : Option String := none
  episode_number : Option String := none
  season_number : Option String := none
  image : Option String := none
  duration : Option Int := none
  timestamp : Option Int := none
  spritesheets : Option (List String) := none
  deriving DecidableEq, Repr

/-- Initial fetch state: every local starts as `None`, `videos` empty. -/
def initFetch : FetchState := {}

/-- The `if video:` block of the fetch loop: append the raw descriptor and
fill `duration`, `is_live`, `spritesheets` if still unset. -/
def procVideoDict (st : FetchState) (v : VideoDict) : FetchState :=
  { st with
    videos := st.videos ++ [v],
    duration := firstSome st.duration v.duration,
    is_live := firstSome st.is_live v.is_live,
    spritesheets := firstSome st.spritesheets v.spritesheets }

/-- The `if meta:` block of the fetch loop: fill `title`, `subtitle`,
`image`, `timestamp` if still unset; `season_number` and `episode_number`
are reassigned unconditionally from this response's `pre_title`. -/
def procMetaDict (pIso : String → Option Int) (st : FetchState) (m : MetaDict) : FetchState :=
  let se := seFromPre m.pre_title
  { st with
    title := firstSome st.title m.title,
    season_number := se.1,
    episode_number := se.2,
    subtitle := firstSome st.subtitle m.additional_title,
    image := firstSome st.image m.image_url,
    timestamp := firstSome st.timestamp (m.broadcasted_at.bind pIso) }

/-- One iteration of the fetch loop: a failed download (`not dinfo`) is
skipped, otherwise the `video` and `meta` parts are processed in order. -/
def procResponse (pIso : String → Option Int) (st : FetchState) (d : Option DeviceResponse) :
    FetchState :=
  match d with
  | none => st
  | some dr =>
    let st1 := match dr.video with
      | some v => procVideoDict st v
      | none => st
    match dr.meta with
    | some m => procMetaDict pIso st1 m
    | none => st1

/-- The whole fetch loop over the profile iteration order
(`desktop` first, then `mobile`). -/
def fetchMerge (pIso : String → Option Int) (rd rm : Option DeviceResponse) : FetchState :=
  procResponse pIso (procResponse pIso initFetch rd) rm

/-- The `video` part of an optional device response. -/
def respVideo (d : Option DeviceResponse) : Option VideoDict :=
  d.bind (fun r => r.video)

/-- The `meta` part of an optional device response. -/
def respMeta (d : Option DeviceResponse) : Option MetaDict :=
  d.bind (fun r => r.meta)

/-- A field of the `meta` part of an optional device response. -/
def metaField {α : Type} (f : MetaDict → Option α) (d : Option DeviceResponse) : Option α :=
  (respMeta d).bind f

/-- A field of the `video` part of an optional device response. -/
def vidField {α : Type} (f : VideoDict → Option α) (d : Option DeviceResponse) : Option α :=
  (respVideo d).bind f

/-- How many raw stream descriptors one optional device response carries
(its `video` object, when it is a dict). -/
def respVideoCount (d : Option DeviceResponse) : Nat :=
  match respVideo d with
  | some _ => 1
  | none => 0

/-- Typed failures this pipeline can raise: the geo-restriction error
(`raise_geo_restricted(countries=..., metadata_available=True)`) and the
generic `ExtractorError(msg, expected=...)`. -/
inductive ExtractErr where
  | geoRestricted (countries : List String) (metadataAvailable : Bool)
  | extractorError (msg : String) (expected : Bool)
  deriving DecidableEq, Repr

/-- The final info dict returned by `_extract_video`, the fields it sets. -/
structure Manifest where
  id : String
  title : String
  thumbnail : Option String
  duration : Option Int
  timestamp : Option Int
  is_live : Option Bool
  formats : List Fmt
  subtitles : SubtitleMap
  episode : Option String
  series : Option String
  episode_number : Option Int
  season_number : Option Int
  deriving DecidableEq, Repr

/-- The backend and framework collaborators of one resolution, as response
functions: per-id metadata queries (`device_type`, `domain` hint), token
exchange (token URL, video URL), the three manifest parsers keyed by URL and
format id, the direct-URL reachability probe, the HEAD probe returning
response headers when a response was obtained (lower-cased keys), and the
`parse_iso8601` timestamp coercion. -/
structure Env where
  metadata : String → String → Option String → Option DeviceResponse
  tokenExchange : String → String → Option String
  parseF4m : String → Option String → List Fmt
  parseM3u8 : String → Option String → List Fmt × SubtitleMap
  parseMpd : String → Option String → List Fmt × SubtitleMap
  isValidUrl : String → Bool
  headProbe : String → Option (List (String × String))
  parseIso8601 : String → Option Int

/-- The merged fetch state of `_extract_video` for one reference: the
`desktop` profile is queried first, then `mobile`, both with the smuggled
hostname as domain hint. -/
def fetchState (env : Env) (video_id : String) (hostname : Option String) : FetchState :=
  fetchMerge env.parseIso8601
    (env.metadata video_id "desktop" hostname)
    (env.metadata video_id "mobile" hostname)

/-- Signed-URL resolution for one descriptor: when it carries a resolvable
token endpoint and its workflow is `token-akamai`, the exchanged URL is used
in place of the original; a failed or invalid exchange falls back to the
original URL; otherwise the original URL is used untouched. -/
def resolveDescriptorUrl (exch : String → String → Option String) (v : VideoDict)
    (u : String) : String :=
  match urlOrNone v.token, v.workflow with
  | some t, some w =>
    if w = "token-akamai" then
      match exch t u with
      | some tu => tu
      | none => u
    else u
  | _, _ => u

/-- The rtmp-scheme branch of the resolver: a single flv format whose id is
`'rtmp-%s' % format_id` (Python renders an absent id as the text `None`). -/
def rtmpFormat (u : String) (fid : Option String) : Fmt :=
  { url := u,
    format_id := some ("rtmp-" ++ (match fid with | some s => s | none => "None")),
    ext := some "flv" }

/-- The direct progressive-URL branch of the resolver: a single format
tagged with the descriptor's format id. -/
def directFormat (u : String) (fid : Option String) : Fmt :=
  { url := u, format_id := fid }

/-- The mutable locals of the descriptor loop of `_extract_video`. -/
structure LoopState where
  formats : List Fmt := []
  subtitles : SubtitleMap := []
  videoUrl : Option String := none
  deriving DecidableEq, Repr

/-- One iteration of the descriptor loop: resolve the (possibly tokenized)
URL, classify it by extension or scheme, and extend the accumulated formats
and subtitles; per-descriptor parser output is supplied by the environment
(parser failures appear as empty results, `fatal=False`). -/
def processDescriptor (env : Env) (st : LoopState) (vu : VideoDict × String) : LoopState :=
  let v := vu.1
  let fid := v.format
  let u := resolveDescriptorUrl env.tokenExchange v vu.2
  let st := { st with videoUrl := some u }
  let ext := determineExt u
  if ext = "f4m" then { st with formats := st.formats ++ env.parseF4m u fid }
  else if ext = "m3u8" then
    let fs := env.parseM3u8 u fid
    { st with formats := st.formats ++ fs.1, subtitles := mergeSubtitles st.subtitles fs.2 }
  else if ext = "mpd" then
    let fs := env.parseMpd u fid
    { st with formats := st.formats ++ fs.1, subtitles := mergeSubtitles st.subtitles fs.2 }
  else if startsWithLit "rtmp" u.data then
    { st with formats := st.formats ++ [rtmpFormat u fid] }
  else if env.isValidUrl u then { st with formats := st.formats ++ [directFormat u fid] }
  else st

/-- The raw descriptors entering the descriptor loop:
`traverse_obj(videos, lambda _, v: url_or_none(v['url']))` keeps the
descriptors whose `url` has a resolvable shape, paired with that URL. -/
def descriptorsOf (videos : List VideoDict) : List (VideoDict × String) :=
  videos.filterMap (fun v =>
    match urlOrNone v.url with
    | some u => some (v, u)
    | none => none)

/-- The descriptor loop of `_extract_video` run over the merged raw
descriptor list of one reference. -/
def resolvedState (env : Env) (video_id : String) (hostname : Option String) : LoopState :=
  (descriptorsOf (fetchState env video_id hostname).videos).foldl (processDescriptor env) {}

/-- Does a HEAD-probe outcome carry the geo-signalling header
`x-errortype: geo`?  A failed probe (`urlh` falsy) carries nothing. -/
def geoHeader (resp : Option (List (String × String))) : Bool :=
  match resp with
  | some hdrs =>
    match hdrs.find? (fun kv => kv.1 == "x-errortype") with
    | some kv => kv.2 == "geo"
    | none => false
  | none => false

/-- The audio-description ranking pass: a format with an audio codec (not
`'none'`) in language `qtz` or `qad` gets `language_preference = -10` and a
note prefixed `audio description`; every other format is left unchanged. -/
def adPass (f : Fmt) : Fmt :=
  if f.acodec ≠ some "none" ∧ (f.language = some "qtz" ∨ f.language = some "qad") then
    { f with
      language_preference := some (-10),
      format_note := some ("audio description" ++
        (match f.format_note with
         | some n => if n.data.isEmpty then "" else ", " ++ n
         | none => "")) }
  else f

/-- The storyboard pseudo-format synthesized from the spritesheet URLs: one
fragment per sheet, each with the fixed nominal duration 200. -/
def spritesheetFormat (sheets : List String) : Fmt :=
  { url := "about:invalid",
    format_id := some "spritesheets",
    format_note := some "storyboard",
    acodec := some "none",
    vcodec := some "none",
    ext := some "mhtml",
    protocol := some "mhtml",
    fragments := sheets.map (fun s => { url := s, duration := 200 }) }

/-- The format list of the returned manifest: the audio-description pass
over the resolved formats, plus the storyboard pseudo-format when the
merged spritesheets value is truthy (present and non-empty). -/
def finalFormats (st : FetchState) (ls : LoopState) : List Fmt :=
  let f1 := ls.formats.map adPass
  match st.spritesheets with
  | some sheets => if sheets.isEmpty then f1 else f1 ++ [spritesheetFormat sheets]
  | none => f1

/-- The returned info dict of `_extract_video`: composed title, pass-through
metadata, and the series fields gated on the truthiness of the parsed
episode-number string. -/
def assembleManifest (video_id : String) (st : FetchState) (formats : List Fmt)
    (subs : SubtitleMap) : Manifest :=
  { id := video_id,
    title := pyStrip (joinNonempty st.title st.subtitle),
    thumbnail := st.image,
    duration := st.duration,
    timestamp := st.timestamp,
    is_live := st.is_live,
    formats := formats,
    subtitles := subs,
    episode := if strTruthy st.episode_number then st.subtitle else none,
    series := if strTruthy st.episode_number then st.title else none,
    episode_number := intOrNone st.episode_number,
    season_number := intOrNone st.season_number }

/-- `FranceTVIE._extract_video`: fetch and merge the two profile responses,
run the descriptor loop, geo-check when no format was produced but a
candidate URL existed (raising `GeoRestricted` on the geo header,
countries `['FR']`, metadata available), then apply the audio-description
pass, the storyboard append and assemble the manifest.  The `catalogue`
argument is unused by the source (it stopped being sent in 2021). -/
def extractVideo (env : Env) (video_id : String) (catalogue hostname : Option String) :
    Except ExtractErr Manifest :=
  let st := fetchState env video_id hostname
  let ls := resolvedState env video_id hostname
  let geo : Bool :=
    match ls.formats, ls.videoUrl with
    | [], some u => geoHeader (env.headProbe u)
    | _, _ => false
  if geo then Except.error (ExtractErr.geoRestricted ["FR"] true)
  else Except.ok (assembleManifest video_id st (finalFormats st ls) ls.subtitles)

/-- Strip `https://` or `http://` (the regex `https?://`). -/
def stripScheme (l : List Char) : Option (List Char) :=
  match stripLit "https://".data l with
  | some r => some r
  | none => stripLit "http://".data l

/-- A regex word character, `[A-Za-z0-9_]`. -/
def isWordChar (c : Char) : Bool :=
  c.isAlphanum || c = '_'

/-- Scan for `\bidDiffusion=[^&]+` given the character preceding the scan
position (for the word-boundary test). -/
def scanIdDiffusion : Char → List Char → Bool
  | _, [] => false
  | prev, c :: cs =>
    if isWordChar prev then scanIdDiffusion c cs
    else
      match stripLit "idDiffusion=".data (c :: cs) with
      | some (d :: _) => if d = '&' then scanIdDiffusion c cs else true
      | _ => scanIdDiffusion c cs

/-- The first `_VALID_URL` alternative: the API-ping URL
`https?://sivideo\.webservices\.francetelevisions\.fr/tools/getInfosOeuvre/v2/\?`
followed by `.*?\bidDiffusion=[^&]+` (no capture groups). -/
def matchApiShape (l : List Char) : Bool :=
  match stripScheme l with
  | some r =>
    match stripLit "sivideo.webservices.francetelevisions.fr/tools/getInfosOeuvre/v2/?".data r with
    | some rest => scanIdDiffusion '?' rest
    | none => false
  | none => false

/-- The `(?P<id>[^@]+)(?:@(?P<catalog>.+))?` tail of the second
`_VALID_URL` alternative: a nonempty run of non-`@` characters as the id,
then optionally `@` and at least one further character as the catalog
(a trailing lone `@` is left unconsumed, the optional group not taken). -/
def legacyGroups (rest : List Char) : Option (String × Option String) :=
  let idPart := rest.takeWhile (fun c => !(c == '@'))
  if idPart.isEmpty then none
  else
    match rest.dropWhile (fun c => !(c == '@')) with
    | '@' :: c1 :: cr => some (String.mk idPart, some (String.mk (c1 :: cr)))
    | _ => some (String.mk idPart, none)

/-- The second `_VALID_URL` alternative:
`(?:https?://videos\.francetv\.fr/video/|francetv:)` followed by the
id/catalog groups, anchored at the start of the string (`re.match`). -/
def matchLegacy (l : List Char) : Option (String × Option String) :=
  let afterVideos : Option (List Char) :=
    match stripScheme l with
    | some r => stripLit "videos.francetv.fr/video/".data r
    | none => none
  let rest? : Option (List Char) :=
    match afterVideos with
    | some r => some r
    | none => stripLit "francetv:".data l
  match rest? with
  | none => none
  | some rest => legacyGroups rest

/-- `self._match_valid_url(url)` over `FranceTVIE._VALID_URL`: the pair of
optional `id` and `catalog` groups when either alternative matches. -/
def matchValidUrl (url : String) : Option (Option String × Option String) :=
  if matchApiShape url.data then some (none, none)
  else
    match matchLegacy url.data with
    | some (i, c) => some (some i, c)
    | none => none

/-- Modelled from the spec: the query component of a URL as `urlparse`
yields it — the fragment (everything from the first `#`) is removed first,
then the query is everything after the first `?` of what remains. -/
def queryChars (url : String) : List Char :=
  match afterChar '?' (url.data.takeWhile (fun c => !(c == '#'))) with
  | some q => q
  | none => []

/-- Modelled from the spec: `parse_qs` pair extraction — split the query on
`&`, split each segment at its first `=`, and drop segments without `=` or
with an empty value (blank values are not kept).  Percent-decoding is not
modelled; the URL shapes this pipeline classifies carry their identifiers
literally. -/
def qsPairs (url : String) : List (String × String) :=
  (splitChar '&' (queryChars url)).filterMap (fun seg =>
    match afterChar '=' seg with
    | none => none
    | some v =>
      if v.isEmpty then none
      else some (String.mk (seg.takeWhile (fun c => !(c == '='))), String.mk v))

/-- Modelled from the spec: `parse_qs(url).get(key, [None])[0]` — the value
of the first occurrence of a query parameter. -/
def qsFirst (url key : String) : Option String :=
  match (qsPairs url).find? (fun kv => kv.1 == key) with
  | some kv => some kv.2
  | none => none

/-- The classifier part of `FranceTVIE._real_extract`: the `id`/`catalog`
groups of the pattern match, falling back to the query parameters
`idDiffusion`/`catalogue` when the match yields no id, and failing with the
expected error `ExtractorError('Invalid URL', expected=True)` when no
strategy yields an identifier.  A string the pattern does not match at all
would never reach `_real_extract`; that case surfaces as an unexpected
error here. -/
def classify (url : String) : Except ExtractErr (String × Option String) :=
  match matchValidUrl url with
  | none => Except.error (ExtractErr.extractorError "Unsupported URL" false)
  | some (id?, cat?) =>
    match id? with
    | some i => Except.ok (i, cat?)
    | none =>
      match qsFirst url "idDiffusion" with
      | some v => Except.ok (v, qsFirst url "catalogue")
      | none => Except.error (ExtractErr.extractorError "Invalid URL" true)

/-- `FranceTVIE._real_extract` with the smuggled hostname already split off
(`unsmuggle_url` is framework glue): classify, then resolve. -/
def realExtract (env : Env) (url : String) (smuggledHostname : Option String) :
    Except ExtractErr Manifest :=
  match classify url with
  | Except.error e => Except.error e
  | Except.ok (video_id, catalog) => extractVideo env video_id catalog smuggledHostname

/-- The outcome of `FranceTVBaseInfoExtractor._make_url_result`: the
delegated reference string and the `video_id` it is tagged with.  The
optional `url` argument of the source only wraps `full_id` with a smuggled
`{hostname}` payload (`smuggle_url` appends an out-of-band fragment) and
touches neither the catalog logic nor the `video_id`; it is omitted here. -/
structure UrlResult where
  fullId : String
  videoId : String
  deriving DecidableEq, Repr

/-- `FranceTVBaseInfoExtractor._make_url_result`: prepend `francetv:`,
append `@catalog` only when the identifier has no `@` and the catalog is
truthy, and tag the result with `video_or_full_id.split('@')[0]`. -/
def makeUrlResult (video_or_full_id : String) (catalog : Option String) : UrlResult :=
  let full0 := "francetv:" ++ video_or_full_id
  { fullId :=
      if !video_or_full_id.data.contains '@' && strTruthy catalog then
        full0 ++ "@" ++ (match catalog with | some c => c | none => "")
      else full0,
    videoId := String.mk ((splitChar '@' video_or_full_id.data).headD []) }

/-! Concrete fixtures used by counterexamples and witnesses. -/

/-- Desktop-profile meta whose `pre_title` matches the episode pattern. -/
def c1DesktopMeta : MetaDict := { title := some "T", pre_title := some "S1 E3" }

/-- Desktop-profile response whose `pre_title` matches the episode pattern. -/
def c1Desktop : DeviceResponse := { meta := some c1DesktopMeta }

/-- Mobile-profile meta without a matching `pre_title`. -/
def c1MobileMeta : MetaDict := { title := some "MT", pre_title := none }

/-- Mobile-profile response carrying a meta object without a matching
`pre_title`. -/
def c1Mobile : DeviceResponse := { meta := some c1MobileMeta }

/-- Modelled from the spec: the selection preference a format carries when
the extractor sets none — the framework default the audio-description score
must undercut ("strongly negative ... so default playback selection
prefers the primary audio track"). -/
def defaultLanguagePreference : Int := -1

/-- An environment whose every backend interaction fails or is empty. -/
def envEmpty : Env :=
  { metadata := fun _ _ _ => none,
    tokenExchange := fun _ _ => none,
    parseF4m := fun _ _ => [],
    parseM3u8 := fun _ _ => ([], []),
    parseMpd := fun _ _ => ([], []),
    isValidUrl := fun _ => false,
    headProbe := fun _ => none,
    parseIso8601 := fun _ => none }

/-- The manifest resolved against the all-empty backend. -/
def c4Manifest : Manifest :=
  assembleManifest "v" (fetchState envEmpty "v" none)
    (finalFormats (fetchState envEmpty "v" none) (resolvedState envEmpty "v" none))
    (resolvedState envEmpty "v" none).subtitles

/-- Backend advertising one hls descriptor whose manifest parses to zero
formats, together with spritesheets; the HEAD probe answers without the geo
header. -/
def env3cex : Env :=
  { envEmpty with
    metadata := fun _ dt _ =>
      if dt = "desktop" then
        some { video := some { url := some "https://h/a.m3u8", spritesheets := some ["s1"] } }
      else none,
    headProbe := fun _ => some [] }

/-- The manifest resolved against `env3cex`. -/
def c3Manifest : Manifest :=
  assembleManifest "v" (fetchState env3cex "v" none)
    (finalFormats (fetchState env3cex "v" none) (resolvedState env3cex "v" none))
    (resolvedState env3cex "v" none).subtitles

/-- Same backend as `env3cex` but the HEAD probe carries the geo header. -/
def env3geo : Env :=
  { env3cex with headProbe := fun _ => some [("x-errortype", "geo")] }

/-- A video-only rendition tagged with the audio-description language. -/
def qtzVideoOnly : Fmt := { url := "https://h/v", acodec := some "none", language := some "qtz" }

/-- Backend whose hls manifest parses to the single `qtzVideoOnly` format. -/
def env5cex : Env :=
  { envEmpty with
    metadata := fun _ dt _ =>
      if dt = "desktop" then some { video := some { url := some "https://h/a.m3u8" } }
      else none,
    parseM3u8 := fun _ _ => ([qtzVideoOnly], []),
    headProbe := fun _ => some [] }

/-- The manifest resolved against `env5cex`. -/
def c5Manifest : Manifest :=
  assembleManifest "v" (fetchState env5cex "v" none)
    (finalFormats (fetchState env5cex "v" none) (resolvedState env5cex "v" none))
    (resolvedState env5cex "v" none).subtitles

/-- An audio-description rendition with a real audio codec. -/
def qtzAudio : Fmt := { url := "https://h/v", acodec := some "mp4a", language := some "qtz" }

/-- Backend whose hls manifest parses to the single `qtzAudio` format. -/
def env5wit : Env :=
  { env5cex with parseM3u8 := fun _ _ => ([qtzAudio], []) }

/-- The manifest resolved against `env5wit`. -/
def c5WitManifest : Manifest :=
  assembleManifest "v" (fetchState env5wit "v" none)
    (finalFormats (fetchState env5wit "v" none) (resolvedState env5wit "v" none))
    (resolvedState env5wit "v" none).subtitles

/-- A concrete token-akamai descriptor. -/
def v7 : VideoDict :=
  { url := some "https://h/a.m3u8", token := some "https://h/token",
    workflow := some "token-akamai" }

/-- A concrete token-exchange responder. -/
def exch7 : String → String → Option String := fun t u =>
  if t = "https://h/token" ∧ u = "https://h/a.m3u8" then some "https://h/signed.m3u8" else none

/-- Backend advertising only spritesheets. -/
def env8 : Env :=
  { envEmpty with
    metadata := fun _ dt _ =>
      if dt = "desktop" then some { video := some { spritesheets := some ["a", "b"] } }
      else none }

/-- The manifest resolved against `env8`. -/
def c8Manifest : Manifest :=
  assembleManifest "v" (fetchState env8 "v" none)
    (finalFormats (fetchState env8 "v" none) (resolvedState env8 "v" none))
    (resolvedState env8 "v" none).subtitles

/-- Backend answering metadata only for the reference `v`. -/
def env9a : Env :=
  { envEmpty with
    metadata := fun id dt _ =>
      if id = "v" ∧ dt = "desktop" then some { meta := some { title := some "T" } }
      else none }

/-- Same backend as `env9a` except for what it answers about another id. -/
def env9b : Env :=
  { env9a with
    metadata := fun id dt dom =>
      if id = "other" then some {} else env9a.metadata id dt dom }

/-! Helper lemmas about the episode-pattern parse and the pipeline shape. -/

theorem seMatchAt_shape (l : List Char) (a b : String) (h : seMatchAt l = some (a, b)) :
    a.data ≠ [] ∧ b.data ≠ [] ∧ a.data.all Char.isDigit ∧ b.data.all Char.isDigit := by
  unfold seMatchAt at h
  split at h
  case h_1 rest =>
    simp only at h
    split at h
    case isTrue => exact absurd h (by simp)
    case isFalse h1 =>
      split at h
      case h_1 rest2 =>
        split at h
        case isTrue => exact absurd h (by simp)
        case isFalse h2 =>
          rw [Option.some.injEq, Prod.mk.injEq] at h
          obtain ⟨ha, hb⟩ := h
          subst ha
          subst hb
          refine ⟨by simpa [List.isEmpty_iff] using h1, by simpa [List.isEmpty_iff] using h2,
            ?_, ?_⟩ <;>
            exact List.all_eq_true.mpr fun x hx => List.mem_takeWhile_imp hx
      case h_2 => exact absurd h (by simp)
  case h_2 => exact absurd h (by simp)

theorem seScan_shape (l : List Char) (a b : String) (h : seScan l = some (a, b)) :
    a.data ≠ [] ∧ b.data ≠ [] ∧ a.data.all Char.isDigit ∧ b.data.all Char.isDigit := by
  induction l with
  | nil => exact absurd h (by simp [seScan])
  | cons c cs ih =>
    rw [seScan] at h
    split at h
    case h_1 r heq =>
      cases h
      exact seMatchAt_shape _ _ _ heq
    case h_2 => exact ih h

theorem seFromPre_shape (p : Option String) :
    seFromPre p = (none, none) ∨
      ∃ a b : String, seFromPre p = (some a, some b) ∧ a.data ≠ [] ∧ b.data ≠ []
        ∧ a.data.all Char.isDigit ∧ b.data.all Char.isDigit := by
  match p with
  | none => exact Or.inl rfl
  | some s =>
    rw [seFromPre]
    rcases hscan : seScan s.data with _ | ⟨a, b⟩
    · exact Or.inl rfl
    · obtain ⟨h1, h2, h3, h4⟩ := seScan_shape _ _ _ hscan
      exact Or.inr ⟨a, b, rfl, h1, h2, h3, h4⟩

theorem fetchMerge_sePair (pIso : String → Option Int) (rd rm : Option DeviceResponse) :
    ∃ p : Option String,
      (fetchMerge pIso rd rm).season_number = (seFromPre p).1
      ∧ (fetchMerge pIso rd rm).episode_number = (seFromPre p).2 := by
  rcases rd with _ | ⟨_ | dv, _ | dm⟩ <;> rcases rm with _ | ⟨_ | mv, _ | mm⟩ <;>
    first
    | exact ⟨none, rfl, rfl⟩
    | exact ⟨dm.pre_title, rfl, rfl⟩
    | exact ⟨mm.pre_title, rfl, rfl⟩

theorem intOrNone_digits (s : String) (h1 : s.data ≠ []) (h2 : s.data.all Char.isDigit) :
    intOrNone (some s) = some (Int.ofNat (digitsToNat s.data)) := by
  simp [intOrNone, h2, List.isEmpty_iff, h1]

theorem extractVideo_ok (env : Env) (vid : String) (cat host : Option String) (m : Manifest)
    (h : extractVideo env vid cat host = Except.ok m) :
    m = assembleManifest vid (fetchState env vid host)
          (finalFormats (fetchState env vid host) (resolvedState env vid host))
          (resolvedState env vid host).subtitles := by
  unfold extractVideo at h
  dsimp only at h
  split at h
  · exact absurd h (by simp)
  · injection h with h
    exact h.symm

theorem not_at_all (l : List Char) (h : '@' ∉ l) :
    ∀ c ∈ l, (!(c == '@')) = true := by
  intro c hc
  simp only [Bool.not_eq_eq_eq_not, Bool.not_true, beq_eq_false_iff_ne, ne_eq]
  exact fun he => h (he ▸ hc)

theorem legacyGroups_no_at (i : String) (h1 : i.data ≠ []) (h2 : '@' ∉ i.data) :
    legacyGroups i.data = some (i, none) := by
  have htk : i.data.takeWhile (fun c => !(c == '@')) = i.data :=
    List.takeWhile_eq_self_iff.mpr (not_at_all i.data h2)
  have hdw : i.data.dropWhile (fun c => !(c == '@')) = [] :=
    List.dropWhile_eq_nil_iff.mpr (not_at_all i.data h2)
  unfold legacyGroups
  rw [htk, hdw]
  simp [List.isEmpty_iff, h1]

theorem legacyGroups_at (i c : String) (h1 : i.data ≠ []) (h2 : '@' ∉ i.data)
    (h3 : c.data ≠ []) :
    legacyGroups (i.data ++ '@' :: c.data) = some (i, some c) := by
  have htk : (i.data ++ '@' :: c.data).takeWhile (fun ch => !(ch == '@')) = i.data := by
    rw [List.takeWhile_append, List.takeWhile_eq_self_iff.mpr (not_at_all i.data h2)]
    simp
  have hdw : (i.data ++ '@' :: c.data).dropWhile (fun ch => !(ch == '@')) = '@' :: c.data := by
    rw [List.dropWhile_append, List.dropWhile_eq_nil_iff.mpr (not_at_all i.data h2)]
    simp
  obtain ⟨c1, cr, hc⟩ := List.exists_cons_of_ne_nil h3
  unfold legacyGroups
  rw [htk, hdw, hc]
  simp [List.isEmpty_iff, h1]
  rw [← hc]

theorem matchLegacy_francetv (r : List Char) :
    matchLegacy ("francetv:".data ++ r) = legacyGroups r := rfl

theorem matchLegacy_videos (r : List Char) :
    matchLegacy ("https://videos.francetv.fr/video/".data ++ r) = legacyGroups r := rfl

theorem splitChar_ne_nil (sep : Char) (l : List Char) : splitChar sep l ≠ [] := by
  cases l with
  | nil => simp [splitChar]
  | cons c cs =>
    by_cases hc : c = sep
    · simp [splitChar, hc]
    · rcases h : splitChar sep cs with _ | ⟨p, ps⟩ <;> simp [splitChar, hc, h]

theorem splitChar_not_mem (sep : Char) (l : List Char) (h : sep ∉ l) :
    splitChar sep l = [l] := by
  induction l with
  | nil => rfl
  | cons c cs ih =>
    have hc : ¬(c = sep) := fun he => h (he ▸ List.mem_cons_self c cs)
    have hcs : sep ∉ cs := fun hm => h (List.mem_cons_of_mem c hm)
    simp [splitChar, hc, ih hcs]

theorem splitChar_append (sep : Char) (a b : List Char) (h : sep ∉ a) :
    splitChar sep (a ++ sep :: b) = a :: splitChar sep b := by
  induction a with
  | nil => simp [splitChar]
  | cons c cs ih =>
    have hc : ¬(c = sep) := fun he => h (he ▸ List.mem_cons_self c cs)
    have hcs : sep ∉ cs := fun hm => h (List.mem_cons_of_mem c hm)
    simp [splitChar, hc, ih hcs]

theorem splitChar_headD (sep : Char) (l : List Char) :
    (splitChar sep l).headD [] = l.takeWhile (fun c => !(c == sep)) := by
  induction l with
  | nil => rfl
  | cons c cs ih =>
    by_cases hc : c = sep
    · subst hc
      simp [splitChar, List.takeWhile_cons]
    · rcases h : splitChar sep cs with _ | ⟨p, ps⟩
      · exact absurd h (splitChar_ne_nil sep cs)
      · rw [h] at ih
        simp only [List.headD_cons] at ih
        simp [splitChar, hc, h, List.takeWhile_cons, ih]

theorem scanIdDiffusion_found (prev c d : Char) (cs r : List Char)
    (h1 : isWordChar prev = false)
    (h2 : stripLit "idDiffusion=".data (c :: cs) = some (d :: r))
    (h3 : ¬(d = '&')) :
    scanIdDiffusion prev (c :: cs) = true := by
  simp [scanIdDiffusion, h1, h2, h3]

theorem apiUrl_no_hash (v w : String) (hv : '#' ∉ v.data) (hw : '#' ∉ w.data) :
    ∀ c ∈ ("https://sivideo.webservices.francetelevisions.fr/tools/getInfosOeuvre/v2/?idDiffusion=".data
        ++ (v.data ++ ('&' :: ("catalogue=".data ++ w.data)))), (!(c == '#')) = true := by
  intro c hc
  have hne : c ≠ '#' := by
    rintro rfl
    rcases List.mem_append.mp hc with hc | hc
    · exact absurd hc (by decide)
    · rcases List.mem_append.mp hc with hc | hc
      · exact hv hc
      · rcases List.mem_cons.mp hc with hc | hc
        · exact absurd hc (by decide)
        · rcases List.mem_append.mp hc with hc | hc
          · exact absurd hc (by decide)
          · exact hw hc
  simp [hne]

theorem apiUrl_query (v w : String) (hv : '#' ∉ v.data) (hw : '#' ∉ w.data) :
    queryChars ("https://sivideo.webservices.francetelevisions.fr/tools/getInfosOeuvre/v2/?idDiffusion="
        ++ v ++ "&catalogue=" ++ w)
      = "idDiffusion=".data ++ (v.data ++ ('&' :: ("catalogue=".data ++ w.data))) := by
  unfold queryChars
  rw [show ("https://sivideo.webservices.francetelevisions.fr/tools/getInfosOeuvre/v2/?idDiffusion="
        ++ v ++ "&catalogue=" ++ w).data
      = "https://sivideo.webservices.francetelevisions.fr/tools/getInfosOeuvre/v2/?idDiffusion=".data
          ++ (v.data ++ ('&' :: ("catalogue=".data ++ w.data)))
    from by simp [List.append_assoc]]
  rw [List.takeWhile_eq_self_iff.mpr (apiUrl_no_hash v w hv hw)]
  rw [show afterChar '?'
      ("https://sivideo.webservices.francetelevisions.fr/tools/getInfosOeuvre/v2/?idDiffusion=".data
        ++ (v.data ++ ('&' :: ("catalogue=".data ++ w.data))))
      = some ("idDiffusion=".data ++ (v.data ++ ('&' :: ("catalogue=".data ++ w.data)))) from rfl]

theorem apiUrl_qsPairs (v w : String)
    (hv1 : v.data ≠ []) (hv2 : '&' ∉ v.data) (hv3 : '#' ∉ v.data)
    (hw1 : w.data ≠ []) (hw2 : '&' ∉ w.data) (hw3 : '#' ∉ w.data) :
    qsPairs ("https://sivideo.webservices.francetelevisions.fr/tools/getInfosOeuvre/v2/?idDiffusion="
        ++ v ++ "&catalogue=" ++ w)
      = [("idDiffusion", v), ("catalogue", w)] := by
  have hna : '&' ∉ "idDiffusion=".data ++ v.data := by
    intro hm
    rcases List.mem_append.mp hm with hm | hm
    · exact absurd hm (by decide)
    · exact hv2 hm
  have hnb : '&' ∉ "catalogue=".data ++ w.data := by
    intro hm
    rcases List.mem_append.mp hm with hm | hm
    · exact absurd hm (by decide)
    · exact hw2 hm
  unfold qsPairs
  rw [apiUrl_query v w hv3 hw3]
  rw [show "idDiffusion=".data ++ (v.data ++ ('&' :: ("catalogue=".data ++ w.data)))
      = ("idDiffusion=".data ++ v.data) ++ ('&' :: ("catalogue=".data ++ w.data)) from
    (List.append_assoc _ _ _).symm]
  rw [splitChar_append '&' _ _ hna]
  rw [splitChar_not_mem '&' _ hnb]
  simp only [List.filterMap_cons, List.filterMap_nil]
  rw [show afterChar '=' ("idDiffusion=".data ++ v.data) = some v.data from rfl]
  rw [show afterChar '=' ("catalogue=".data ++ w.data) = some w.data from rfl]
  rw [show ("idDiffusion=".data ++ v.data).takeWhile (fun c => !(c == '=')) = "idDiffusion".data
    from rfl]
  rw [show ("catalogue=".data ++ w.data).takeWhile (fun c => !(c == '=')) = "catalogue".data
    from rfl]
  simp [List.isEmpty_iff, hv1, hw1]

theorem apiUrl_matches (v w : String) (hv1 : v.data ≠ []) (hv2 : '&' ∉ v.data) :
    matchApiShape ("https://sivideo.webservices.francetelevisions.fr/tools/getInfosOeuvre/v2/?idDiffusion="
        ++ v ++ "&catalogue=" ++ w).data = true := by
  rw [show ("https://sivideo.webservices.francetelevisions.fr/tools/getInfosOeuvre/v2/?idDiffusion="
        ++ v ++ "&catalogue=" ++ w).data
      = "https://sivideo.webservices.francetelevisions.fr/tools/getInfosOeuvre/v2/?idDiffusion=".data
          ++ (v.data ++ ('&' :: ("catalogue=".data ++ w.data)))
    from by simp [List.append_assoc]]
  rw [show matchApiShape
      ("https://sivideo.webservices.francetelevisions.fr/tools/getInfosOeuvre/v2/?idDiffusion=".data
        ++ (v.data ++ ('&' :: ("catalogue=".data ++ w.data))))
      = scanIdDiffusion '?' ("idDiffusion=".data ++ (v.data ++ ('&' :: ("catalogue=".data ++ w.data))))
    from rfl]
  obtain ⟨v1, vt, hveq⟩ := List.exists_cons_of_ne_nil hv1
  have hne : ¬(v1 = '&') := fun he => hv2 (by rw [hveq, he]; exact List.mem_cons_self '&' vt)
  rw [hveq]
  exact scanIdDiffusion_found '?' 'i' v1 _ _ rfl rfl hne

theorem apiUrl_classify (v w : String)
    (hv1 : v.data ≠ []) (hv2 : '&' ∉ v.data) (hv3 : '#' ∉ v.data)
    (hw1 : w.data ≠ []) (hw2 : '&' ∉ w.data) (hw3 : '#' ∉ w.data) :
    classify ("https://sivideo.webservices.francetelevisions.fr/tools/getInfosOeuvre/v2/?idDiffusion="
        ++ v ++ "&catalogue=" ++ w)
      = Except.ok (v, some w) := by
  have hm : matchValidUrl
      ("https://sivideo.webservices.francetelevisions.fr/tools/getInfosOeuvre/v2/?idDiffusion="
        ++ v ++ "&catalogue=" ++ w) = some (none, none) := by
    unfold matchValidUrl
    rw [apiUrl_matches v w hv1 hv2]
    simp
  have h1 : qsFirst ("https://sivideo.webservices.francetelevisions.fr/tools/getInfosOeuvre/v2/?idDiffusion="
      ++ v ++ "&catalogue=" ++ w) "idDiffusion" = some v := by
    unfold qsFirst
    rw [apiUrl_qsPairs v w hv1 hv2 hv3 hw1 hw2 hw3]
    rfl
  have h2 : qsFirst ("https://sivideo.webservices.francetelevisions.fr/tools/getInfosOeuvre/v2/?idDiffusion="
      ++ v ++ "&catalogue=" ++ w) "catalogue" = some w := by
    unfold qsFirst
    rw [apiUrl_qsPairs v w hv1 hv2 hv3 hw1 hw2 hw3]
    rfl
  unfold classify
  rw [hm]
  dsimp only
  rw [h1, h2]

theorem francetv_classify (i : String) (h1 : i.data ≠ []) (h2 : '@' ∉ i.data) :
    classify ("francetv:" ++ i) = Except.ok (i, none) := by
  unfold classify matchValidUrl
  rw [show ("francetv:" ++ i).data = "francetv:".data ++ i.data from rfl]
  rw [show matchApiShape ("francetv:".data ++ i.data) = false from rfl]
  rw [matchLegacy_francetv, legacyGroups_no_at i h1 h2]
  rfl

theorem francetv_at_classify (i c : String) (h1 : i.data ≠ []) (h2 : '@' ∉ i.data)
    (h3 : c.data ≠ []) :
    classify ("francetv:" ++ i ++ "@" ++ c) = Except.ok (i, some c) := by
  unfold classify matchValidUrl
  rw [show ("francetv:" ++ i ++ "@" ++ c).data
      = "francetv:".data ++ (i.data ++ '@' :: c.data) from by simp [List.append_assoc]]
  rw [show matchApiShape ("francetv:".data ++ (i.data ++ '@' :: c.data)) = false from rfl]
  rw [matchLegacy_francetv, legacyGroups_at i c h1 h2 h3]
  rfl

theorem videos_at_classify (i c : String) (h1 : i.data ≠ []) (h2 : '@' ∉ i.data)
    (h3 : c.data ≠ []) :
    classify ("https://videos.francetv.fr/video/" ++ i ++ "@" ++ c) = Except.ok (i, some c) := by
  unfold classify matchValidUrl
  rw [show ("https://videos.francetv.fr/video/" ++ i ++ "@" ++ c).data
      = "https://videos.francetv.fr/video/".data ++ (i.data ++ '@' :: c.data)
    from by simp [List.append_assoc]]
  rw [show matchApiShape ("https://videos.francetv.fr/video/".data ++ (i.data ++ '@' :: c.data))
      = false from rfl]
  rw [matchLegacy_videos, legacyGroups_at i c h1 h2 h3]
  rfl

theorem fetchState_sePair (env : Env) (vid : String) (host : Option String) :
    ∃ p : Option String,
      (fetchState env vid host).season_number = (seFromPre p).1
      ∧ (fetchState env vid host).episode_number = (seFromPre p).2 :=
  fetchMerge_sePair env.parseIso8601
    (env.metadata vid "desktop" host) (env.metadata vid "mobile" host)

theorem strTruthy_of_ne (s : String) (h : s.data ≠ []) : strTruthy (some s) = true := by
  simp [strTruthy, List.isEmpty_iff]
  exact h

/-! Claim theorems. -/

/-- C1 (counterexample): the merged episode/season numbers do NOT follow
the first-non-null rule.  With a desktop response whose `pre_title`
parses to season 1 / episode 3 and a mobile response whose meta carries no
matching `pre_title`, the merged `episode_number` is absent — the mobile
iteration overwrote the desktop value — while the first non-null value in
profile order is `3`.  The `title` field, by contrast, does keep the
desktop value. -/
theorem claim_C1_counterexample :
    (fetchMerge (fun _ => none) (some c1Desktop) (some c1Mobile)).episode_number = none
    ∧ seFromPre c1DesktopMeta.pre_title = (some "1", some "3")
    ∧ firstSome (seFromPre c1DesktopMeta.pre_title).2
        (seFromPre c1MobileMeta.pre_title).2 = some "3"
    ∧ (fetchMerge (fun _ => none) (some c1Desktop) (some c1Mobile)).title = some "T" := by
  refine ⟨?_, ?_, ?_, ?_⟩ <;> decide

/-- C1 (amended): in the merged fetch state, `title`, `subtitle`, `image`,
`duration`, `timestamp`, `is_live` and `spritesheets` are the first
non-null values in profile iteration order (desktop first, then mobile);
`season_number` and `episode_number`, by contrast, are re-parsed from every
profile response that carries a meta object, so they come from the LAST
meta-bearing response (the parse of its `pre_title`), not from the first
non-null one. -/
theorem claim_C1_amended (pIso : String → Option Int) (rd rm : Option DeviceResponse) :
    (fetchMerge pIso rd rm).title
        = firstSome (metaField MetaDict.title rd) (metaField MetaDict.title rm)
    ∧ (fetchMerge pIso rd rm).subtitle
        = firstSome (metaField MetaDict.additional_title rd)
            (metaField MetaDict.additional_title rm)
    ∧ (fetchMerge pIso rd rm).image
        = firstSome (metaField MetaDict.image_url rd) (metaField MetaDict.image_url rm)
    ∧ (fetchMerge pIso rd rm).duration
        = firstSome (vidField VideoDict.duration rd) (vidField VideoDict.duration rm)
    ∧ (fetchMerge pIso rd rm).is_live
        = firstSome (vidField VideoDict.is_live rd) (vidField VideoDict.is_live rm)
    ∧ (fetchMerge pIso rd rm).spritesheets
        = firstSome (vidField VideoDict.spritesheets rd) (vidField VideoDict.spritesheets rm)
    ∧ (fetchMerge pIso rd rm).timestamp
        = firstSome ((metaField MetaDict.broadcasted_at rd).bind pIso)
            ((metaField MetaDict.broadcasted_at rm).bind pIso)
    ∧ ((fetchMerge pIso rd rm).season_number, (fetchMerge pIso rd rm).episode_number)
        = (match respMeta rm with
           | some m => seFromPre m.pre_title
           | none =>
             match respMeta rd with
             | some m => seFromPre m.pre_title
             | none => (none, none)) := by
  rcases rd with _ | ⟨_ | dv, _ | dm⟩ <;> rcases rm with _ | ⟨_ | mv, _ | mm⟩ <;>
    simp [fetchMerge, procResponse, procVideoDict, procMetaDict, initFetch,
      metaField, vidField, respMeta, respVideo]

/-- C2: the merged raw-descriptor list is the concatenation of the
descriptors of the two profile responses, without deduplication: its length
is the sum of the two responses' descriptor counts (each response carries
at most one `video` object), and two responses carrying the very same
descriptor still contribute it twice. -/
theorem claim_C2_concatenation (pIso : String → Option Int) (rd rm : Option DeviceResponse) :
    (fetchMerge pIso rd rm).videos.length = respVideoCount rd + respVideoCount rm
    ∧ ∀ v : VideoDict,
        (fetchMerge pIso (some { video := some v }) (some { video := some v })).videos
          = [v, v] := by
  constructor
  · rcases rd with _ | ⟨_ | dv, _ | dm⟩ <;> rcases rm with _ | ⟨_ | mv, _ | mm⟩ <;>
      simp [fetchMerge, procResponse, procVideoDict, procMetaDict, initFetch,
        respVideoCount, respMeta, respVideo]
  · intro v
    simp [fetchMerge, procResponse, procVideoDict, initFetch]

/-- C4: in the assembled manifest the four series fields are gated on a
successfully parsed episode number.  When the merged episode-number string
is absent, `episode`, `series`, `episode_number` and `season_number` are
all absent (and the pattern binds season and episode together, so a season
number alone cannot have been found); when it was parsed, `episode` is the
merged subtitle, `series` the merged title, and both numbers are present.
The parse follows the pattern `S<digits> E<digits>`: `S1 E3` yields
season `1` and episode `3`. -/
theorem claim_C4_series_gating (env : Env) (vid : String) (cat host : Option String)
    (m : Manifest) (h : extractVideo env vid cat host = Except.ok m) :
    ((fetchState env vid host).episode_number = none →
       m.episode = none ∧ m.series = none ∧ m.episode_number = none ∧ m.season_number = none)
    ∧ (∀ e : String, (fetchState env vid host).episode_number = some e →
        m.episode = (fetchState env vid host).subtitle
        ∧ m.series = (fetchState env vid host).title
        ∧ (∃ en : Int, m.episode_number = some en)
        ∧ (∃ sn : Int, m.season_number = some sn))
    ∧ seFromPre (some "S1 E3") = (some "1", some "3") := by
  have hm := extractVideo_ok env vid cat host m h
  subst hm
  obtain ⟨p, hs, he⟩ := fetchState_sePair env vid host
  refine ⟨?_, ?_, by decide⟩
  · intro hep
    rcases seFromPre_shape p with hnone | ⟨a, b, heq, h1, h2, h3, h4⟩
    · rw [hnone] at hs
      simp [assembleManifest, hep, hs, strTruthy, intOrNone]
    · rw [heq] at he
      rw [hep] at he
      exact absurd he.symm (by simp)
  · intro e hep
    rcases seFromPre_shape p with hnone | ⟨a, b, heq, h1, h2, h3, h4⟩
    · rw [hnone] at he
      rw [hep] at he
      exact absurd he (by simp)
    · rw [heq] at hs he
      simp only at hs he
      refine ⟨?_, ?_, ?_, ?_⟩
      · simp [assembleManifest, he, strTruthy_of_ne b h2]
      · simp [assembleManifest, he, strTruthy_of_ne b h2]
      · exact ⟨Int.ofNat (digitsToNat b.data),
          by simp [assembleManifest, he, intOrNone_digits b h2 h4]⟩
      · exact ⟨Int.ofNat (digitsToNat a.data),
          by simp [assembleManifest, hs, intOrNone_digits a h1 h3]⟩

/-- C4 (witness): on a backend returning no metadata at all, the resolved
manifest carries none of the four series fields. -/
theorem claim_C4_series_gating_witness :
    c4Manifest.episode = none ∧ c4Manifest.series = none ∧ c4Manifest.episode_number = none
      ∧ c4Manifest.season_number = none :=
  (claim_C4_series_gating envEmpty "v" none none c4Manifest rfl).1 rfl

/-- C3 (counterexample): with zero resolved formats, a candidate URL, a
HEAD probe carrying no geo header, and merged spritesheets present, the
returned manifest's formats list is NOT empty — it contains the storyboard
pseudo-format appended after the geo check. -/
theorem claim_C3_counterexample :
    (resolvedState env3cex "v" none).formats = []
    ∧ (resolvedState env3cex "v" none).videoUrl = some "https://h/a.m3u8"
    ∧ geoHeader (env3cex.headProbe "https://h/a.m3u8") = false
    ∧ extractVideo env3cex "v" none none = Except.ok c3Manifest
    ∧ c3Manifest.formats = [spritesheetFormat ["s1"]]
    ∧ c3Manifest.formats ≠ [] := by
  refine ⟨rfl, rfl, rfl, rfl, rfl, ?_⟩
  decide

/-- C3 (amended): when the descriptor loop produced zero formats but a
candidate URL existed, the HEAD probe decides the outcome: `GeoRestricted`
(countries `['FR']`, metadata available) is raised exactly when the probe
response carries `x-errortype: geo`; otherwise no exception is raised and
the returned manifest's formats list contains no stream-derived format — it
is empty except for the storyboard pseudo-format added when the merged
spritesheets value is non-empty. -/
theorem claim_C3_geo_gate (env : Env) (vid : String) (cat host : Option String) (u : String)
    (h0 : (resolvedState env vid host).formats = [])
    (h1 : (resolvedState env vid host).videoUrl = some u) :
    (geoHeader (env.headProbe u) = true →
       extractVideo env vid cat host = Except.error (ExtractErr.geoRestricted ["FR"] true))
    ∧ (geoHeader (env.headProbe u) = false →
       ∃ m : Manifest, extractVideo env vid cat host = Except.ok m
         ∧ m.formats = (match (fetchState env vid host).spritesheets with
             | some sheets => if sheets.isEmpty then [] else [spritesheetFormat sheets]
             | none => [])) := by
  constructor
  · intro hg
    unfold extractVideo
    dsimp only
    rw [h0, h1]
    simp [hg]
  · intro hg
    refine ⟨assembleManifest vid (fetchState env vid host)
        (finalFormats (fetchState env vid host) (resolvedState env vid host))
        (resolvedState env vid host).subtitles, ?_, ?_⟩
    · unfold extractVideo
      dsimp only
      rw [h0, h1]
      simp [hg]
    · simp only [assembleManifest]
      unfold finalFormats
      rw [h0]
      rcases (fetchState env vid host).spritesheets with _ | sheets <;> simp

/-- C3 (witness): same backend as the counterexample but with the probe
returning the geo header — the pipeline raises `GeoRestricted`. -/
theorem claim_C3_geo_gate_witness :
    extractVideo env3geo "v" none none = Except.error (ExtractErr.geoRestricted ["FR"] true) :=
  (claim_C3_geo_gate env3geo "v" none none "https://h/a.m3u8" rfl rfl).1 rfl

/-- C5 (counterexample): a resolved format tagged `qtz` whose audio codec
is `'none'` (a video-only rendition) is left untouched by the
audio-description pass — its selection preference is not lowered and its
note is not annotated, contradicting the claim's "every format whose
language tag is qtz or qad". -/
theorem claim_C5_counterexample :
    extractVideo env5cex "v" none none = Except.ok c5Manifest
    ∧ c5Manifest.formats = [qtzVideoOnly]
    ∧ qtzVideoOnly.language = some "qtz"
    ∧ qtzVideoOnly.language_preference = none
    ∧ qtzVideoOnly.format_note = none := by
  refine ⟨rfl, ?_, rfl, rfl, rfl⟩
  decide

theorem adPass_mem (f : Fmt) (l : List Fmt) (hf : f ∈ l.map adPass)
    (hcond : f.acodec ≠ some "none" ∧ (f.language = some "qtz" ∨ f.language = some "qad")) :
    f.language_preference = some (-10)
    ∧ ∃ s : String, f.format_note = some ("audio description" ++ s) := by
  obtain ⟨g, hg, rfl⟩ := List.mem_map.mp hf
  by_cases hc : g.acodec ≠ some "none" ∧ (g.language = some "qtz" ∨ g.language = some "qad")
  · unfold adPass
    rw [if_pos hc]
    exact ⟨rfl, ⟨_, rfl⟩⟩
  · have hid : adPass g = g := by
      unfold adPass
      rw [if_neg hc]
    rw [hid] at hcond
    exact absurd hcond hc

/-- C5 (amended): every resolved format whose language is `qtz` or `qad`
AND whose audio codec is not `'none'` gets selection preference `-10`
(strictly below the framework default) and a note prefixed
`audio description`; qtz/qad formats without an audio track are exempt. -/
theorem claim_C5_ad_ranking (env : Env) (vid : String) (cat host : Option String)
    (m : Manifest) (h : extractVideo env vid cat host = Except.ok m) :
    (∀ f ∈ m.formats,
      f.acodec ≠ some "none" ∧ (f.language = some "qtz" ∨ f.language = some "qad") →
        f.language_preference = some (-10)
        ∧ ∃ s : String, f.format_note = some ("audio description" ++ s))
    ∧ (-10 : Int) < defaultLanguagePreference := by
  refine ⟨?_, by decide⟩
  intro f hf hcond
  have hm := extractVideo_ok env vid cat host m h
  subst hm
  simp only [assembleManifest] at hf
  unfold finalFormats at hf
  dsimp only at hf
  rcases hsp : (fetchState env vid host).spritesheets with _ | sheets
  · rw [hsp] at hf
    exact adPass_mem f _ hf hcond
  · rw [hsp] at hf
    dsimp only at hf
    by_cases hem : sheets.isEmpty
    · rw [if_pos hem] at hf
      exact adPass_mem f _ hf hcond
    · rw [if_neg hem] at hf
      rcases List.mem_append.mp hf with hf | hf
      · exact adPass_mem f _ hf hcond
      · have hfs : f = spritesheetFormat sheets := by simpa using hf
        refine absurd ?_ hcond.1
        rw [hfs]
        rfl

/-- C5 (witness): a qtz format with a real audio codec gets preference -10
and the annotated note. -/
theorem claim_C5_ad_ranking_witness :
    (adPass qtzAudio).language_preference = some (-10)
    ∧ ∃ s : String, (adPass qtzAudio).format_note = some ("audio description" ++ s) :=
  (claim_C5_ad_ranking env5wit "v" none none c5WitManifest rfl).1 (adPass qtzAudio)
    (by decide) (by decide)

/-- C6: the URL classifier of `_real_extract` extracts the expected
`(video_id, catalog)` pair from every valid shape: internal
`francetv:<id>` and `francetv:<id>@<catalog>` references, legacy
`videos.francetv.fr/video/<id>@<catalog>` URLs, and API-ping URLs whose
query carries `idDiffusion` (with or without `catalogue`), the latter via
the query-string fallback; and when no strategy yields an identifier —
here an API URL whose `idDiffusion` sits in the fragment, not the query —
it fails with the expected (non-fatal) `ExtractorError('Invalid URL')`. -/
theorem claim_C6_classifier (i c v w : String)
    (hi1 : i.data ≠ []) (hi2 : '@' ∉ i.data) (hc1 : c.data ≠ [])
    (hv1 : v.data ≠ []) (hv2 : '&' ∉ v.data) (hv3 : '#' ∉ v.data)
    (hw1 : w.data ≠ []) (hw2 : '&' ∉ w.data) (hw3 : '#' ∉ w.data) :
    classify ("francetv:" ++ i) = Except.ok (i, none)
    ∧ classify ("francetv:" ++ i ++ "@" ++ c) = Except.ok (i, some c)
    ∧ classify ("https://videos.francetv.fr/video/" ++ i ++ "@" ++ c) = Except.ok (i, some c)
    ∧ classify
        ("https://sivideo.webservices.francetelevisions.fr/tools/getInfosOeuvre/v2/?idDiffusion="
          ++ v ++ "&catalogue=" ++ w) = Except.ok (v, some w)
    ∧ classify
        "https://sivideo.webservices.francetelevisions.fr/tools/getInfosOeuvre/v2/?idDiffusion=162311093&callback=cb"
        = Except.ok ("162311093", none)
    ∧ classify
        "https://sivideo.webservices.francetelevisions.fr/tools/getInfosOeuvre/v2/?callback=x#idDiffusion=1"
        = Except.error (ExtractErr.extractorError "Invalid URL" true) :=
  ⟨francetv_classify i hi1 hi2, francetv_at_classify i c hi1 hi2 hc1,
   videos_at_classify i c hi1 hi2 hc1, apiUrl_classify v w hv1 hv2 hv3 hw1 hw2 hw3,
   rfl, rfl⟩

/-- C6 (witness): the classifier at concrete reference strings. -/
theorem claim_C6_classifier_witness :
    classify ("francetv:" ++ "NI_1004933") = Except.ok ("NI_1004933", none) :=
  (claim_C6_classifier "NI_1004933" "Zouzous" "162311093" "Zouzous"
    (by decide) (by decide) (by decide) (by decide) (by decide) (by decide)
    (by decide) (by decide) (by decide)).1

/-- C7: the signed-URL exchange runs exactly for descriptors carrying a
resolvable token endpoint with workflow `token-akamai`: the exchanged URL
replaces the original on success, and a failed exchange falls back to the
original URL (the descriptor is still processed, not suppressed);
descriptors without a token endpoint or with another (or no) workflow use
the original URL whatever the exchange function would return. -/
theorem claim_C7_token_exchange (exch : String → String → Option String) (v : VideoDict)
    (u t : String) :
    (urlOrNone v.token = some t → v.workflow = some "token-akamai" →
      resolveDescriptorUrl exch v u =
        (match exch t u with
         | some tu => tu
         | none => u))
    ∧ (urlOrNone v.token = none → resolveDescriptorUrl exch v u = u)
    ∧ (∀ w : String, v.workflow = some w → ¬(w = "token-akamai") →
        resolveDescriptorUrl exch v u = u)
    ∧ (v.workflow = none → resolveDescriptorUrl exch v u = u) := by
  refine ⟨?_, ?_, ?_, ?_⟩
  · intro ht hw
    unfold resolveDescriptorUrl
    rw [ht, hw]
    simp
  · intro ht
    unfold resolveDescriptorUrl
    rw [ht]
  · intro w hw hne
    unfold resolveDescriptorUrl
    rw [hw]
    cases ht : urlOrNone v.token
    · rfl
    · simp [hne]
  · intro hw
    unfold resolveDescriptorUrl
    rw [hw]
    cases ht : urlOrNone v.token <;> rfl

/-- C7 (witness): a token-akamai descriptor at a concrete exchange. -/
theorem claim_C7_token_exchange_witness :
    resolveDescriptorUrl exch7 v7 "https://h/a.m3u8" = "https://h/signed.m3u8" := by
  have h := (claim_C7_token_exchange exch7 v7 "https://h/a.m3u8" "https://h/token").1 rfl rfl
  exact h.trans (by decide)

/-- C8: a non-empty merged spritesheets value appends exactly one
storyboard-kind format after the audio-description pass; its fragments are
in bijection with the sheet URLs and every fragment's duration is the
fixed nominal 200. -/
theorem claim_C8_storyboard (env : Env) (vid : String) (cat host : Option String) (m : Manifest)
    (sheets : List String) (h : extractVideo env vid cat host = Except.ok m)
    (hs : (fetchState env vid host).spritesheets = some sheets) (hne : sheets ≠ []) :
    m.formats = (resolvedState env vid host).formats.map adPass ++ [spritesheetFormat sheets]
    ∧ (spritesheetFormat sheets).fragments.length = sheets.length
    ∧ (∀ fr ∈ (spritesheetFormat sheets).fragments, fr.duration = 200)
    ∧ (spritesheetFormat sheets).format_note = some "storyboard" := by
  have hm := extractVideo_ok env vid cat host m h
  subst hm
  refine ⟨?_, ?_, ?_, rfl⟩
  · simp only [assembleManifest]
    unfold finalFormats
    rw [hs]
    simp [List.isEmpty_iff, hne]
  · simp [spritesheetFormat]
  · intro fr hfr
    simp only [spritesheetFormat] at hfr
    obtain ⟨s, hsm, rfl⟩ := List.mem_map.mp hfr
    rfl

/-- C8 (witness): two spritesheet URLs yield the storyboard format appended
to the (here empty) resolved list. -/
theorem claim_C8_storyboard_witness :
    c8Manifest.formats
      = (resolvedState env8 "v" none).formats.map adPass ++ [spritesheetFormat ["a", "b"]] :=
  (claim_C8_storyboard env8 "v" none none c8Manifest ["a", "b"] rfl rfl (by decide)).1

/-- C9: resolution is deterministic and stateless — the outcome is a
function of the backend responses alone.  Two environments that agree on
the metadata responses for the resolved reference and on the token
exchange, manifest parsers, reachability probe, HEAD probe and timestamp
parser produce identical manifests, whatever their metadata responses for
other references are. -/
theorem claim_C9_determinism (e1 e2 : Env) (vid : String) (cat host : Option String)
    (hmd : e1.metadata vid = e2.metadata vid)
    (htok : e1.tokenExchange = e2.tokenExchange)
    (hf4m : e1.parseF4m = e2.parseF4m)
    (hm3u8 : e1.parseM3u8 = e2.parseM3u8)
    (hmpd : e1.parseMpd = e2.parseMpd)
    (hvalid : e1.isValidUrl = e2.isValidUrl)
    (hhead : e1.headProbe = e2.headProbe)
    (hiso : e1.parseIso8601 = e2.parseIso8601) :
    extractVideo e1 vid cat host = extractVideo e2 vid cat host := by
  obtain ⟨md1, tok1, f1, m31, mp1, v1, hp1, iso1⟩ := e1
  obtain ⟨md2, tok2, f2, m32, mp2, v2, hp2, iso2⟩ := e2
  simp only at hmd htok hf4m hm3u8 hmpd hvalid hhead hiso
  subst htok hf4m hm3u8 hmpd hvalid hhead hiso
  unfold extractVideo resolvedState fetchState
  dsimp only
  rw [hmd]
  rfl

/-- C9 (witness): two environments differing only in what they answer for
another video id resolve the same reference identically. -/
theorem claim_C9_determinism_witness :
    extractVideo env9a "v" none none = extractVideo env9b "v" none none :=
  claim_C9_determinism env9a env9b "v" none none rfl rfl rfl rfl rfl rfl rfl rfl

/-- C10: `_make_url_result` ignores the catalog argument for identifiers
already containing `@` (no second `@catalog` suffix is appended), and the
reference's `video_id` — `split('@')[0]` — is always the part of the
identifier before its first `@` (the whole identifier when there is
none). -/
theorem claim_C10_make_url_result (i : String) (cat : Option String) :
    (i.data.contains '@' = true → (makeUrlResult i cat).fullId = "francetv:" ++ i)
    ∧ (makeUrlResult i cat).videoId = String.mk (i.data.takeWhile (fun c => !(c == '@'))) := by
  constructor
  · intro h
    simp only [makeUrlResult]
    rw [h]
    simp
  · simp only [makeUrlResult, splitChar_headD]

/-- C10 (witness): an identifier with `@` keeps its own catalog tail and
drops the supplied catalog. -/
theorem claim_C10_make_url_result_witness :
    (makeUrlResult "a@b" (some "c")).fullId = "francetv:" ++ "a@b" :=
  (claim_C10_make_url_result "a@b" (some "c")).1 (by decide)

end FranceTV
